import Mathlib

/-!
Verification of the three WASM bootstrap scripts of `prezentare_licenta`.

The repository holds three near-identical loader scripts:

* the shared-memory variant (first script of `src/main.js`): probes
  `SharedArrayBuffer`, calls `init` with an explicit module URL and a shared
  `WebAssembly.Memory {initial: 200, maximum: 16384, shared: true}`, then in an
  async continuation logs success, awaits `wasm.initThreadPool(2)`, and finally
  calls `wasm.wasm_main()` (logging "wasm_main called") if that export exists.
  No rejection handler is attached anywhere.
* the white-mode simple variant (second script of `src/main.js`, importing
  `./pkg_white_mode/...`): probes, calls `init()` with no arguments, on
  resolution logs success and conditionally calls `wasm_main`, and attaches a
  `.catch` that logs "Failed to initialize WASM:" with the error.
* the pkg simple variant (`src/unnamed/part_000`, importing `./pkg/...`):
  textually the same control flow as the white-mode variant.

Each script is a straight line of asynchronous steps with no data flow other
than the host-supplied outcomes of the promises involved.  We therefore embed
each script as a function from a host environment (is `SharedArrayBuffer`
defined, does `init` resolve or reject, does `initThreadPool` resolve or
reject, does the module export `wasm_main`) to the totally ordered trace of
observable events the script produces in that environment, following the
JavaScript promise semantics: a `.then` continuation runs exactly when the
promise resolves, an exception escaping an async continuation with no `.catch`
becomes an unhandled rejection reaching the host.
-/

/-- Descriptor of the `WebAssembly.Memory` argument built by the shared-memory
variant: initial pages, maximum pages, shared flag. -/
structure MemoryDescriptor where
  initial : Nat
  maximum : Nat
  shared : Bool
deriving DecidableEq, Repr

/-- The configuration record passed to `init` by the shared-memory variant:
an explicit module URL and a memory descriptor.  The simple variants pass no
configuration (`none` at the call event). -/
structure InitConfig where
  moduleURL : String
  memory : MemoryDescriptor
deriving DecidableEq, Repr

/-- The configuration the shared-memory variant builds at its `init` call:
`new URL("./pkg/prezentare_licenta.wasm", import.meta.url)` and
`new WebAssembly.Memory({initial: 200, maximum: 16384, shared: true})`. -/
def sharedInitConfig : InitConfig :=
  ⟨"./pkg/prezentare_licenta.wasm", ⟨200, 16384, true⟩⟩

/-- Observable events of a loader run, in program order.  Log lines are kept
structured (constructor plus payload) rather than as formatted strings. -/
inductive Event where
  /-- `console.log("SharedArrayBuffer available:", typeof SharedArrayBuffer !== "undefined")` -/
  | probeLog (sabAvailable : Bool)
  /-- the call to `init`, with its configuration argument if any -/
  | initCall (config : Option InitConfig)
  /-- the promise returned by `init` resolves -/
  | initResolved
  /-- the promise returned by `init` rejects with the given error -/
  | initRejected (err : String)
  /-- `console.log("WASM module initialized")` -/
  | initializedLog
  /-- the call `wasm.initThreadPool(workers)` -/
  | threadPoolCall (workers : Nat)
  /-- the promise returned by `initThreadPool` resolves -/
  | threadPoolResolved
  /-- evaluation of the condition `wasm.wasm_main` (the existence check) -/
  | wasmMainCheck (present : Bool)
  /-- the call `wasm.wasm_main()` -/
  | wasmMainInvoke
  /-- `console.log("wasm_main called")` -/
  | wasmMainLog
  /-- `console.error("Failed to initialize WASM:", error)` -/
  | failLog (err : String)
  /-- a rejection that no handler of this code catches, surfacing at the host
  environment's default unhandled-rejection handler -/
  | unhandledRejection (err : String)
deriving DecidableEq, Repr

/-- The host-environment behaviour a run is parameterised by: whether
`SharedArrayBuffer` is defined, whether the `init` promise resolves or rejects
(and with which error), whether the `initThreadPool` promise resolves or
rejects, and whether the module namespace exposes a truthy `wasm_main`. -/
structure Env where
  sabAvailable : Bool
  initResult : Except String Unit
  threadPoolResult : Except String Unit
  hasWasmMain : Bool

/-- Trace of the shared-memory variant (first script of `src/main.js`).
`init({module: ..., memory: ...}).then(async () => { log; await
initThreadPool(2); if (wasm_main) { wasm_main(); log } })` with no `.catch`:
a rejection of `init`, or of `initThreadPool` inside the async continuation,
escapes as an unhandled rejection and nothing later in the script runs. -/
def runShared (env : Env) : List Event :=
  Event.probeLog env.sabAvailable ::
  Event.initCall (some sharedInitConfig) ::
  match env.initResult with
  | .error e => [Event.initRejected e, Event.unhandledRejection e]
  | .ok _ =>
    Event.initResolved :: Event.initializedLog :: Event.threadPoolCall 2 ::
    match env.threadPoolResult with
    | .error e => [Event.unhandledRejection e]
    | .ok _ =>
      Event.threadPoolResolved :: Event.wasmMainCheck env.hasWasmMain ::
      if env.hasWasmMain then [Event.wasmMainInvoke, Event.wasmMainLog] else []

/-- Trace of the pkg simple variant (`src/unnamed/part_000`).
`init().then(() => { log; if (wasm_main) { wasm_main(); log } }).catch(error
=> console.error("Failed to initialize WASM:", error))`: a rejection of `init`
reaches the catch handler, which logs it; nothing else runs. -/
def runSimplePkg (env : Env) : List Event :=
  Event.probeLog env.sabAvailable ::
  Event.initCall none ::
  match env.initResult with
  | .error e => [Event.initRejected e, Event.failLog e]
  | .ok _ =>
    Event.initResolved :: Event.initializedLog ::
    Event.wasmMainCheck env.hasWasmMain ::
    if env.hasWasmMain then [Event.wasmMainInvoke, Event.wasmMainLog] else []

/-- Trace of the white-mode simple variant (second script of `src/main.js`,
importing `./pkg_white_mode/prezentare_licenta.js`).  Its control flow is
textually identical to the pkg simple variant. -/
def runWhiteMode (env : Env) : List Event :=
  Event.probeLog env.sabAvailable ::
  Event.initCall none ::
  match env.initResult with
  | .error e => [Event.initRejected e, Event.failLog e]
  | .ok _ =>
    Event.initResolved :: Event.initializedLog ::
    Event.wasmMainCheck env.hasWasmMain ::
    if env.hasWasmMain then [Event.wasmMainInvoke, Event.wasmMainLog] else []

/-- Recogniser for the capability-probe log event. -/
def isProbeLog : Event → Bool
  | .probeLog _ => true
  | _ => false

/-- Recogniser for the `init` call event. -/
def isInitCall : Event → Bool
  | .initCall _ => true
  | _ => false

/-- Recogniser for the resolution of the `init` promise. -/
def isInitResolved : Event → Bool
  | .initResolved => true
  | _ => false

/-- Recogniser for the `initThreadPool` call event. -/
def isThreadPoolCall : Event → Bool
  | .threadPoolCall _ => true
  | _ => false

/-- Recogniser for the resolution of the `initThreadPool` promise. -/
def isThreadPoolResolved : Event → Bool
  | .threadPoolResolved => true
  | _ => false

/-- Recogniser for the `wasm_main` existence check. -/
def isWasmMainCheck : Event → Bool
  | .wasmMainCheck _ => true
  | _ => false

/-- Recogniser for the `wasm_main()` call. -/
def isWasmMainInvoke : Event → Bool
  | .wasmMainInvoke => true
  | _ => false

/-- Recogniser for the "wasm_main called" log line. -/
def isWasmMainLog : Event → Bool
  | .wasmMainLog => true
  | _ => false

/-- Recogniser for the "Failed to initialize WASM:" error log. -/
def isFailLog : Event → Bool
  | .failLog _ => true
  | _ => false

/-- Recogniser for an unhandled rejection surfacing at the host. -/
def isUnhandledRejection : Event → Bool
  | .unhandledRejection _ => true
  | _ => false

/-- `noneBefore stop bad l` holds when no `bad` event occurs strictly before
the first `stop` event of `l` (in particular, when `l` has no `stop` event, no
`bad` event occurs at all).  Together with membership of a `bad` event it
expresses that the `bad` event happens only after a `stop` event. -/
def noneBefore (stop bad : Event → Bool) (l : List Event) : Bool :=
  (l.takeWhile (fun e => !stop e)).all (fun e => !bad e)

/-- Every `wasm_main` invocation in the trace is immediately followed by the
"wasm_main called" log line (so in particular no invocation is the last
event). -/
def invokeImmediatelyLogged : List Event → Bool
  | [] => true
  | [e] => !isWasmMainInvoke e
  | e :: f :: rest =>
    (!isWasmMainInvoke e || isWasmMainLog f) && invokeImmediatelyLogged (f :: rest)

example : runSimplePkg ⟨true, .ok (), .ok (), true⟩ =
    [Event.probeLog true, Event.initCall none, Event.initResolved,
     Event.initializedLog, Event.wasmMainCheck true, Event.wasmMainInvoke,
     Event.wasmMainLog] := by decide

example : runShared ⟨false, .error "network error", .ok (), true⟩ =
    [Event.probeLog false, Event.initCall (some sharedInitConfig),
     Event.initRejected "network error",
     Event.unhandledRejection "network error"] := by decide

/-- C1 (counterexample): in the shared-memory variant, when `init` resolves but
`initThreadPool` rejects, the module exposes `wasm_main` and yet `wasm_main` is
never invoked, so "when the initialization promise resolves, `wasm_main` is
invoked if and only if the module exposes that symbol" fails as stated. -/
theorem c1_counterexample :
    Event.initResolved ∈ runShared ⟨true, Except.ok (), Except.error "boom", true⟩ ∧
    (Env.mk true (Except.ok ()) (Except.error "boom") true).hasWasmMain = true ∧
    Event.wasmMainInvoke ∉ runShared ⟨true, Except.ok (), Except.error "boom", true⟩ := by
  decide

/-- C1 (amended): in every variant `wasm_main` is never invoked before the
`init` promise resolves; in the simple variants, once `init` resolves,
`wasm_main` is invoked iff the module exposes it; in the shared-memory variant
the same holds provided `initThreadPool` also resolves. -/
theorem c1_invocation (env : Env) :
    noneBefore isInitResolved isWasmMainInvoke (runShared env) = true ∧
    noneBefore isInitResolved isWasmMainInvoke (runSimplePkg env) = true ∧
    noneBefore isInitResolved isWasmMainInvoke (runWhiteMode env) = true ∧
    (env.initResult = Except.ok () →
      ((Event.wasmMainInvoke ∈ runSimplePkg env ↔ env.hasWasmMain = true) ∧
       (Event.wasmMainInvoke ∈ runWhiteMode env ↔ env.hasWasmMain = true))) ∧
    (env.initResult = Except.ok () → env.threadPoolResult = Except.ok () →
      (Event.wasmMainInvoke ∈ runShared env ↔ env.hasWasmMain = true)) := by
  obtain ⟨sab, ir, tp, hm⟩ := env
  cases ir <;> cases tp <;> cases hm <;>
    simp [runShared, runSimplePkg, runWhiteMode, noneBefore,
      isInitResolved, isWasmMainInvoke]

/-- C1 (witness for the amended theorem): with everything resolving and
`wasm_main` present, the shared-memory variant does invoke `wasm_main`. -/
theorem c1_invocation_witness :
    Event.wasmMainInvoke ∈ runShared ⟨true, Except.ok (), Except.ok (), true⟩ :=
  ((c1_invocation ⟨true, Except.ok (), Except.ok (), true⟩).2.2.2.2 rfl rfl).mpr rfl

/-- C2: in both simple variants, if `init` rejects with error `e` the whole
trace is probe, init call, rejection, one "Failed to initialize WASM:" log of
`e` — so the rejection is logged exactly once, `wasm_main` is never invoked,
and nothing happens after the log. -/
theorem c2_rejection_logged_once (env : Env) (e : String)
    (h : env.initResult = Except.error e) :
    runSimplePkg env =
      [Event.probeLog env.sabAvailable, Event.initCall none,
       Event.initRejected e, Event.failLog e] ∧
    runWhiteMode env =
      [Event.probeLog env.sabAvailable, Event.initCall none,
       Event.initRejected e, Event.failLog e] ∧
    Event.wasmMainInvoke ∉ runSimplePkg env ∧
    Event.wasmMainInvoke ∉ runWhiteMode env ∧
    (runSimplePkg env).countP isFailLog = 1 ∧
    (runWhiteMode env).countP isFailLog = 1 := by
  obtain ⟨sab, ir, tp, hm⟩ := env
  cases ir <;>
    simp_all [runSimplePkg, runWhiteMode, isFailLog, List.countP_cons]

/-- C2 (witness): concrete rejection with "network error" in the pkg simple
variant is logged exactly once. -/
theorem c2_rejection_logged_once_witness :
    (runSimplePkg ⟨true, Except.error "network error", Except.ok (), true⟩).countP
      isFailLog = 1 :=
  (c2_rejection_logged_once ⟨true, Except.error "network error", Except.ok (), true⟩
    "network error" rfl).2.2.2.2.1

/-- C3: in the shared-memory variant, neither the `wasm_main` existence check
nor a `wasm_main` call ever occurs before the `initThreadPool` promise has
resolved, in any environment. -/
theorem c3_threadpool_before_main (env : Env) :
    noneBefore isThreadPoolResolved
      (fun e => isWasmMainCheck e || isWasmMainInvoke e) (runShared env) = true := by
  obtain ⟨sab, ir, tp, hm⟩ := env
  cases ir <;> cases tp <;> cases hm <;> rfl

/-- C4: in all three variants and every environment, the trace starts with the
capability-probe log followed immediately by the `init` call, and each of these
two events occurs exactly once — so the probe log strictly precedes any
module-loading attempt. -/
theorem c4_probe_before_init (env : Env) :
    (∃ rest, runShared env =
       Event.probeLog env.sabAvailable ::
       Event.initCall (some sharedInitConfig) :: rest) ∧
    (∃ rest, runSimplePkg env =
       Event.probeLog env.sabAvailable :: Event.initCall none :: rest) ∧
    (∃ rest, runWhiteMode env =
       Event.probeLog env.sabAvailable :: Event.initCall none :: rest) ∧
    (runShared env).countP isProbeLog = 1 ∧
    (runShared env).countP isInitCall = 1 ∧
    (runSimplePkg env).countP isProbeLog = 1 ∧
    (runSimplePkg env).countP isInitCall = 1 ∧
    (runWhiteMode env).countP isProbeLog = 1 ∧
    (runWhiteMode env).countP isInitCall = 1 := by
  obtain ⟨sab, ir, tp, hm⟩ := env
  cases ir <;> cases tp <;> cases hm <;>
    exact ⟨⟨_, rfl⟩, ⟨_, rfl⟩, ⟨_, rfl⟩, rfl, rfl, rfl, rfl, rfl, rfl⟩

/-- C5: the probe result is never acted upon — two runs of any variant whose
environments agree on everything except `SharedArrayBuffer` availability
produce the very same trace after the first event, and the first event is the
probe's own log line carrying the respective flag. -/
theorem c5_probe_result_unused (b1 b2 : Bool) (ir tp : Except String Unit)
    (hm : Bool) :
    runShared ⟨b1, ir, tp, hm⟩ =
      Event.probeLog b1 :: (runShared ⟨b2, ir, tp, hm⟩).tail ∧
    runSimplePkg ⟨b1, ir, tp, hm⟩ =
      Event.probeLog b1 :: (runSimplePkg ⟨b2, ir, tp, hm⟩).tail ∧
    runWhiteMode ⟨b1, ir, tp, hm⟩ =
      Event.probeLog b1 :: (runWhiteMode ⟨b2, ir, tp, hm⟩).tail :=
  ⟨rfl, rfl, rfl⟩

/-- C6 (counterexample): in the shared-memory variant with the module loaded
(`init` resolved, success logged) and no `wasm_main`, a rejection of
`initThreadPool` still surfaces as an unhandled error, so "terminates without
further action and without raising any error" fails as stated. -/
theorem c6_counterexample :
    (Env.mk true (Except.ok ()) (Except.error "boom") false).hasWasmMain = false ∧
    Event.initializedLog ∈
      runShared ⟨true, Except.ok (), Except.error "boom", false⟩ ∧
    Event.unhandledRejection "boom" ∈
      runShared ⟨true, Except.ok (), Except.error "boom", false⟩ := by
  decide

/-- C6 (amended): if the module exposes no `wasm_main`, "wasm_main called" is
never logged in any variant; and when `init` resolves (and, in the
shared-memory variant, `initThreadPool` also resolves), the whole trace is the
probe, the `init` call, the resolution, the success log (plus the thread-pool
steps in the shared variant) and the failed existence check — nothing after it
and no error event anywhere. -/
theorem c6_no_main_scenario (env : Env) :
    (env.hasWasmMain = false →
      Event.wasmMainLog ∉ runShared env ∧
      Event.wasmMainLog ∉ runSimplePkg env ∧
      Event.wasmMainLog ∉ runWhiteMode env) ∧
    (env.initResult = Except.ok () → env.hasWasmMain = false →
      runSimplePkg env =
        [Event.probeLog env.sabAvailable, Event.initCall none,
         Event.initResolved, Event.initializedLog, Event.wasmMainCheck false] ∧
      runWhiteMode env =
        [Event.probeLog env.sabAvailable, Event.initCall none,
         Event.initResolved, Event.initializedLog, Event.wasmMainCheck false]) ∧
    (env.initResult = Except.ok () → env.threadPoolResult = Except.ok () →
      env.hasWasmMain = false →
      runShared env =
        [Event.probeLog env.sabAvailable, Event.initCall (some sharedInitConfig),
         Event.initResolved, Event.initializedLog, Event.threadPoolCall 2,
         Event.threadPoolResolved, Event.wasmMainCheck false]) := by
  obtain ⟨sab, ir, tp, hm⟩ := env
  cases ir <;> cases tp <;> cases hm <;>
    simp [runShared, runSimplePkg, runWhiteMode]

/-- C6 (witness for the amended theorem): the fully successful shared-memory
run with no `wasm_main` ends at the failed existence check. -/
theorem c6_no_main_scenario_witness :
    runShared ⟨true, Except.ok (), Except.ok (), false⟩ =
      [Event.probeLog true, Event.initCall (some sharedInitConfig),
       Event.initResolved, Event.initializedLog, Event.threadPoolCall 2,
       Event.threadPoolResolved, Event.wasmMainCheck false] :=
  (c6_no_main_scenario ⟨true, Except.ok (), Except.ok (), false⟩).2.2 rfl rfl rfl

/-- C7: in both simple variants, if `init` rejects with some error `e`, the
trace contains the "Failed to initialize WASM:" log of `e` and never contains
the "wasm_main called" log. -/
theorem c7_reject_scenario (env : Env) (e : String)
    (h : env.initResult = Except.error e) :
    (Event.failLog e ∈ runSimplePkg env ∧
     Event.wasmMainLog ∉ runSimplePkg env) ∧
    (Event.failLog e ∈ runWhiteMode env ∧
     Event.wasmMainLog ∉ runWhiteMode env) := by
  obtain ⟨sab, ir, tp, hm⟩ := env
  cases ir <;> simp_all [runSimplePkg, runWhiteMode]

/-- C7 (witness): rejection with "network error" is logged in the pkg simple
variant. -/
theorem c7_reject_scenario_witness :
    Event.failLog "network error" ∈
      runSimplePkg ⟨true, Except.error "network error", Except.ok (), true⟩ :=
  (c7_reject_scenario ⟨true, Except.error "network error", Except.ok (), true⟩
    "network error" rfl).1.1

/-- C8: the shared-memory variant attaches no failure handler — whether `init`
rejects, or `init` resolves and `initThreadPool` rejects, no "Failed to
initialize WASM:" log ever appears, `wasm_main` is never invoked, and the
trace ends with the rejection reaching the host environment's default
unhandled-rejection handler (nothing at all happens after it). -/
theorem c8_no_handler_in_shared (env : Env) (e : String) :
    (env.initResult = Except.error e →
      (∀ x, Event.failLog x ∉ runShared env) ∧
      Event.wasmMainInvoke ∉ runShared env ∧
      ∃ pre, runShared env = pre ++ [Event.unhandledRejection e]) ∧
    (env.initResult = Except.ok () → env.threadPoolResult = Except.error e →
      (∀ x, Event.failLog x ∉ runShared env) ∧
      Event.wasmMainInvoke ∉ runShared env ∧
      ∃ pre, runShared env = pre ++ [Event.unhandledRejection e]) := by
  obtain ⟨sab, ir, tp, hm⟩ := env
  refine ⟨fun h => ?_, fun h1 h2 => ?_⟩
  · cases ir with
    | ok u => exact absurd h (by simp)
    | error e2 =>
      injection h with h3
      subst e2
      exact ⟨by simp [runShared], by simp [runShared],
        ⟨[Event.probeLog sab, Event.initCall (some sharedInitConfig),
          Event.initRejected e], rfl⟩⟩
  · cases ir with
    | error e2 => exact absurd h1 (by simp)
    | ok u =>
      cases tp with
      | ok u2 => exact absurd h2 (by simp)
      | error e2 =>
        injection h2 with h3
        subst e2
        exact ⟨by simp [runShared], by simp [runShared],
          ⟨[Event.probeLog sab, Event.initCall (some sharedInitConfig),
            Event.initResolved, Event.initializedLog, Event.threadPoolCall 2],
           rfl⟩⟩

/-- C8 (witness): with `init` rejecting, the shared-memory variant never
invokes `wasm_main`. -/
theorem c8_no_handler_in_shared_witness :
    Event.wasmMainInvoke ∉
      runShared ⟨true, Except.error "network error", Except.ok (), true⟩ :=
  ((c8_no_handler_in_shared ⟨true, Except.error "network error", Except.ok (), true⟩
    "network error").1 rfl).2.1

/-- C9 (counterexample): when `init` rejects, the shared-memory variant never
calls `initThreadPool` at all, so "initThreadPool is called exactly once with
worker count exactly 2" fails as stated (the call count of this run is 0). -/
theorem c9_counterexample :
    Event.initCall (some sharedInitConfig) ∈
      runShared ⟨true, Except.error "network error", Except.ok (), true⟩ ∧
    (runShared ⟨true, Except.error "network error", Except.ok (), true⟩).countP
      isThreadPoolCall = 0 := by
  decide

/-- C9 (amended): in every run of the shared-memory variant, `init` is called
exactly once and always with the explicit module URL and the memory descriptor
initial 200 pages, maximum 16384 pages, shared flag true; every
`initThreadPool` call passes worker count 2; `initThreadPool` is called at
most once, and exactly once whenever the `init` promise resolves. -/
theorem c9_fixed_configuration (env : Env) :
    (runShared env).countP isInitCall = 1 ∧
    Event.initCall (some sharedInitConfig) ∈ runShared env ∧
    (∀ c, Event.initCall c ∈ runShared env → c = some sharedInitConfig) ∧
    (∀ n, Event.threadPoolCall n ∈ runShared env → n = 2) ∧
    (runShared env).countP isThreadPoolCall ≤ 1 ∧
    (env.initResult = Except.ok () →
      (runShared env).countP isThreadPoolCall = 1) ∧
    sharedInitConfig.memory.initial = 200 ∧
    sharedInitConfig.memory.maximum = 16384 ∧
    sharedInitConfig.memory.shared = true := by
  obtain ⟨sab, ir, tp, hm⟩ := env
  cases ir <;> cases tp <;> cases hm <;>
    simp [runShared, sharedInitConfig, isInitCall, isThreadPoolCall,
      List.countP_cons]

/-- C9 (witness for the amended theorem): when `init` resolves, the thread
pool is started exactly once. -/
theorem c9_fixed_configuration_witness :
    (runShared ⟨true, Except.ok (), Except.ok (), true⟩).countP
      isThreadPoolCall = 1 :=
  (c9_fixed_configuration ⟨true, Except.ok (), Except.ok (), true⟩).2.2.2.2.2.1 rfl

/-- C10: in every variant and every environment, `wasm_main` is invoked at
most once, "wasm_main called" is logged iff `wasm_main` was invoked, and every
invocation is immediately followed by that log line. -/
theorem c10_invoke_once_logged (env : Env) :
    ((runShared env).countP isWasmMainInvoke ≤ 1 ∧
     (Event.wasmMainLog ∈ runShared env ↔ Event.wasmMainInvoke ∈ runShared env) ∧
     invokeImmediatelyLogged (runShared env) = true) ∧
    ((runSimplePkg env).countP isWasmMainInvoke ≤ 1 ∧
     (Event.wasmMainLog ∈ runSimplePkg env ↔
       Event.wasmMainInvoke ∈ runSimplePkg env) ∧
     invokeImmediatelyLogged (runSimplePkg env) = true) ∧
    ((runWhiteMode env).countP isWasmMainInvoke ≤ 1 ∧
     (Event.wasmMainLog ∈ runWhiteMode env ↔
       Event.wasmMainInvoke ∈ runWhiteMode env) ∧
     invokeImmediatelyLogged (runWhiteMode env) = true) := by
  obtain ⟨sab, ir, tp, hm⟩ := env
  cases ir <;> cases tp <;> cases hm <;>
    simp [runShared, runSimplePkg, runWhiteMode, invokeImmediatelyLogged,
      isWasmMainInvoke, isWasmMainLog, List.countP_cons]

/-- C10 (witness): with everything succeeding and `wasm_main` present, the
"wasm_main called" log is present because the invocation is. -/
theorem c10_invoke_once_logged_witness :
    Event.wasmMainLog ∈ runSimplePkg ⟨true, Except.ok (), Except.ok (), true⟩ :=
  ((c10_invoke_once_logged ⟨true, Except.ok (), Except.ok (), true⟩).2.1.2.1).mpr
    (by decide)
